import Mathlib

/-!
# Verification of the static-file servers in `serve-test.py` and `simple-server.py`

The repository holds two small Python scripts:

* `serve-test.py` defines `MyHandler`, a subclass of
  `http.server.SimpleHTTPRequestHandler` that overrides only `do_GET`:
  when `self.path == '/'` it sets `self.path = '/test-claude-ui.html'` and
  then delegates to the parent's `do_GET`.  The server is created with
  `socketserver.TCPServer(("", 8000), MyHandler)`; `serve_forever()` is
  wrapped in `try/except KeyboardInterrupt` which closes the server and
  calls `sys.exit(0)`.
* `simple-server.py` uses `http.server.SimpleHTTPRequestHandler` directly
  inside `with socketserver.TCPServer(("", 8000), handler) as httpd:` and
  calls `httpd.serve_forever()` with no exception handling.

The static-file resolution itself lives in the Python standard library
(`SimpleHTTPRequestHandler`), which is not part of this repository; it is
modelled here from the specification's per-request contract.  The parts the
repository does contain — the default-document rewrite, the method
dispatch, and the startup/shutdown control flow — are embedded from the
source.
-/

set_option autoImplicit false

namespace StaticServer

/-- An HTTP request as the data model describes it: method, path, headers.
In `http.server` the `path` string is the raw request target, so a query
string (as in `/?x=1`) is part of `path`. -/
structure Request where
  method : String
  path : String
  headers : List (String × String)
deriving DecidableEq, Repr

/-- An HTTP response: status code, content type, body bytes. -/
structure Response where
  status : Nat
  contentType : String
  body : List Nat
deriving DecidableEq, Repr

/-- The filesystem under the working directory: a finite map from
absolute request paths (such as `/test-claude-ui.html`) to file contents.
Only files are listed; the root directory itself is not a file, so a
well-formed filesystem has no entry keyed `/`. -/
abbrev FS := List (String × List Nat)

/-- Splits a list of characters on a separator character; the pieces are
returned in order, separators dropped.  Structural recursion so that the
kernel can evaluate it on literals. -/
def splitCharAux (sep : Char) : List Char → List Char → List (List Char)
  | [], acc => [acc.reverse]
  | c :: cs, acc =>
    if c = sep then acc.reverse :: splitCharAux sep cs []
    else splitCharAux sep cs (c :: acc)

/-- All separator-delimited segments of a string. -/
def splitChar (sep : Char) (p : String) : List (List Char) :=
  splitCharAux sep p.data []

/-- Whether the request path contains a `..` segment (a parent-directory
escape attempt, spec step 5). -/
def hasDotDot (p : String) : Bool :=
  (splitChar '/' p).contains ['.', '.']

/-- The file extension of a path: the final `.`-initiated suffix of its
last segment, or the empty string when the last segment has no dot. -/
def fileExtension (p : String) : String :=
  let r := p.data.reverse
  let pre := r.takeWhile (fun c => c != '.' && c != '/')
  match r.drop pre.length with
  | '.' :: _ => String.mk ('.' :: pre.reverse)
  | _ => ""

/-- Modelled from the spec: the standard MIME mapping used by the
static-file primitive — `.html` maps to text/html, `.css` to text/css,
`.js` to application/javascript, and an unknown extension to an
octet-stream fallback (spec step 3). -/
def guessType (p : String) : String :=
  let e := fileExtension p
  if e = ".html" then "text/html"
  else if e = ".css" then "text/css"
  else if e = ".js" then "application/javascript"
  else "application/octet-stream"

/-- Modelled from the spec: the minimal error body of spec step 4 (its
exact bytes are unspecified; these are the ASCII bytes of `404`). -/
def minimalErrorBody : List Nat := [52, 48, 52]

/-- Modelled from the spec: the GET behavior of the standard static-file
handler (`http.server.SimpleHTTPRequestHandler`), which is not part of
this repository.  Per the spec's per-request contract, steps 2–5: a path
with `..` segments is refused with 403/404 and never served from outside
the root; an existing file is served with status 200, the content type
inferred from its extension, and its bytes; any other path gets status 404
with a minimal error body. -/
def staticGET (fs : FS) (p : String) : Response :=
  if hasDotDot p then
    ⟨404, "text/html", minimalErrorBody⟩
  else
    match fs.lookup p with
    | some bytes => ⟨200, guessType p, bytes⟩
    | none => ⟨404, "text/html", minimalErrorBody⟩

/-- From `src/serve-test.py`, `MyHandler.do_GET` lines 24–25: the path is
replaced by `/test-claude-ui.html` exactly when it equals `/`. -/
def rewritePath (p : String) : String :=
  if p = "/" then "/test-claude-ui.html" else p

/-- `MyHandler.do_GET` at the request level: it mutates only `self.path`
(and only when it is exactly `/`) before delegating to the parent. -/
def myHandlerRewriteReq (r : Request) : Request :=
  if r.path = "/" then ⟨r.method, "/test-claude-ui.html", r.headers⟩ else r

/-- From `src/serve-test.py`: `MyHandler` overrides only `do_GET`, so a
GET request is delegated to the inherited behavior `base` after the
default-document rewrite, while every other method reaches the inherited
behavior with the request untouched. -/
def myHandlerHandle (base : Request → Response) (r : Request) : Response :=
  if r.method = "GET" then base (myHandlerRewriteReq r) else base r

/-- The GET response of the `serve-test.py` server: rewrite, then resolve
statically (spec-modelled resolution). -/
def serveTestGET (fs : FS) (p : String) : Response :=
  staticGET fs (rewritePath p)

/-- The GET response of the `simple-server.py` server: the stock handler,
no rewrite. -/
def simpleServerGET (fs : FS) (p : String) : Response :=
  staticGET fs p

/-- The responses of a run of the `simple-server.py` server over a
sequence of GET request paths: each request is resolved independently. -/
def serveAllSimple (fs : FS) (ps : List String) : List Response :=
  ps.map (simpleServerGET fs)

/-- The responses of a run of the `serve-test.py` server over a sequence
of GET request paths. -/
def serveAllTest (fs : FS) (ps : List String) : List Response :=
  ps.map (serveTestGET fs)

/-- The body of a response is confined to the root: it is either the
error body or the contents of some file of the root filesystem. -/
def bodyFromRoot (fs : FS) (r : Response) : Prop :=
  r.body = minimalErrorBody ∨ ∃ q b, fs.lookup q = some b ∧ r.body = b

/-! ## Startup and shutdown control flow

The scripts' top-level control flow is embedded as pure functions: a
Python computation either returns a value or raises a named exception. -/

/-- Outcome of a Python expression: a value, or a raised exception
identified by its class name. -/
inductive PyResult (α : Type) where
  | ok (a : α)
  | exn (e : String)
deriving DecidableEq, Repr

/-- How the process terminates: a clean interpreter exit with a given
status code (such as `sys.exit(0)`), or death from an exception that
reached the top level uncaught — which is never a status-0 exit (CPython
reports a non-zero status, and for `KeyboardInterrupt` dies by SIGINT). -/
inductive Termination where
  | exit (code : Nat)
  | uncaught (e : String)
deriving DecidableEq, Repr

/-- Whether the process exits with status 0. -/
def exitsZero : Termination → Bool
  | .exit 0 => true
  | _ => false

/-- What is observable after the serving loop ends: whether the listening
socket was closed, and how the process terminated. -/
structure ShutdownOutcome where
  socketClosed : Bool
  termination : Termination
deriving DecidableEq, Repr

/-- Modelled from the spec: `serve_forever()` blocks serving requests
until interrupted; an interrupt signal received while serving surfaces as
a `KeyboardInterrupt` exception at the call site.  The argument states
whether the scenario delivers an interrupt (the loop never returns
normally otherwise; the `ok` case is a placeholder no claim relies on). -/
def serveForever (interrupted : Bool) : PyResult Unit :=
  if interrupted then .exn "KeyboardInterrupt" else .ok ()

/-- From `src/serve-test.py` lines 47–53: `serve_forever()` inside
`try/except KeyboardInterrupt`; the handler prints a notice, calls
`httpd.server_close()` and `sys.exit(0)`. -/
def serveTestRun (interrupted : Bool) : ShutdownOutcome :=
  match serveForever interrupted with
  | .ok _ => ⟨false, .exit 0⟩
  | .exn e =>
    if e = "KeyboardInterrupt" then ⟨true, .exit 0⟩
    else ⟨false, .uncaught e⟩

/-- From `src/simple-server.py` lines 16–19: `serve_forever()` inside
`with socketserver.TCPServer(...) as httpd:` and no `try/except`.  The
`with` statement closes the listening socket on the way out
(`TCPServer.__exit__` calls `server_close`), but the exception keeps
propagating and reaches the top level uncaught. -/
def simpleServerRun (interrupted : Bool) : ShutdownOutcome :=
  match serveForever interrupted with
  | .ok _ => ⟨true, .exit 0⟩
  | .exn e => ⟨true, .uncaught e⟩

/-! ## Binding the listening socket -/

/-- The (address, port) pairs currently bound by running instances. -/
structure BindState where
  bound : List (String × Nat)
deriving DecidableEq, Repr

/-- Result of creating a `TCPServer`: a new bind state with the pair
bound, or a bind error. -/
inductive BindResult where
  | ok (s : BindState)
  | bindError
deriving DecidableEq, Repr

/-- Modelled from the spec: at most one server instance binds a given
(address, port) pair at a time — creating `socketserver.TCPServer` on a
pair that is already bound fails with a bind error and leaves the holder
untouched; on a free pair it binds it. -/
def tcpBind (s : BindState) (addr : String) (port : Nat) : BindResult :=
  if (addr, port) ∈ s.bound then .bindError
  else .ok ⟨(addr, port) :: s.bound⟩

/-- Outcome of running one of the scripts up to the serving loop: the
server is running (with the new bind state), or startup failed with the
given termination and whether a retry was attempted. -/
inductive StartOutcome where
  | running (s : BindState)
  | failed (t : Termination) (retried : Bool)
deriving DecidableEq, Repr

/-- From both scripts: `socketserver.TCPServer(("", PORT), handler)` with
`PORT = 8000` is created at top level with no surrounding `try/except`,
so a bind failure propagates as an uncaught `OSError` — a non-zero exit
with no retry. -/
def scriptStart (s : BindState) : StartOutcome :=
  match tcpBind s "" 8000 with
  | .ok s2 => .running s2
  | .bindError => .failed (.uncaught "OSError") false

/-- A probe for the inherited behavior: a response that records which path
reached the underlying handler. -/
def probeHandler : Request → Response :=
  fun q => ⟨404, q.path, []⟩

/-! ## Helper lemmas -/

/-- The request-level rewrite acts as `rewritePath` on the path and leaves
the other fields alone. -/
theorem myHandlerRewriteReq_eq (r : Request) :
    myHandlerRewriteReq r = ⟨r.method, rewritePath r.path, r.headers⟩ := by
  unfold myHandlerRewriteReq rewritePath
  by_cases h : r.path = "/" <;> simp [h]

/-- A path other than `/` is left unchanged by the rewrite. -/
theorem rewritePath_ne (p : String) (h : p ≠ "/") : rewritePath p = p := by
  simp [rewritePath, h]

/-- When the resolved path has no file and no `..` segment is involved or
not, the static handler answers 404 with the minimal error body. -/
theorem staticGET_none (fs : FS) (q : String) (hq : fs.lookup q = none) :
    (staticGET fs q).status = 404 ∧ (staticGET fs q).body = minimalErrorBody := by
  unfold staticGET
  by_cases h : hasDotDot q = true <;> simp [h, hq]

/-! ## Claim theorems -/

/-- C1: in `serve-test.py`, a GET whose path is exactly `/` has its path
substituted with `/test-claude-ui.html` before static-file resolution, so
a GET to `/` yields exactly the same response as a GET to
`/test-claude-ui.html` — against any inherited resolution behavior and
against any filesystem state. -/
theorem C1_root_equals_default_document :
    (∀ (base : Request → Response) (hs : List (String × String)),
      myHandlerHandle base ⟨"GET", "/", hs⟩ =
        myHandlerHandle base ⟨"GET", "/test-claude-ui.html", hs⟩) ∧
    (∀ fs : FS, serveTestGET fs "/" = serveTestGET fs "/test-claude-ui.html") := by
  constructor
  · intro base hs
    have h1 : rewritePath "/" = "/test-claude-ui.html" := by decide
    have h2 : rewritePath "/test-claude-ui.html" = "/test-claude-ui.html" := by decide
    simp [myHandlerHandle, myHandlerRewriteReq_eq, h1, h2]
  · intro fs
    have h1 : rewritePath "/" = "/test-claude-ui.html" := by decide
    have h2 : rewritePath "/test-claude-ui.html" = "/test-claude-ui.html" := by decide
    simp [serveTestGET, h1, h2]

/-- C1 witness: with the default document on disk, `/` and
`/test-claude-ui.html` get the same response. -/
theorem C1_root_equals_default_document_witness :
    serveTestGET [("/test-claude-ui.html", [1, 2])] "/" =
      serveTestGET [("/test-claude-ui.html", [1, 2])] "/test-claude-ui.html" :=
  C1_root_equals_default_document.2 [("/test-claude-ui.html", [1, 2])]

/-- C9: the default-document rewrite fires only on the exact path `/` and
touches only the path field: any other path — including a root request
carrying a query string such as `/?x=1` — passes through unchanged, and
the method and headers are unchanged in every case. -/
theorem C9_rewrite_only_exact_root :
    (∀ r : Request, r.path ≠ "/" → myHandlerRewriteReq r = r) ∧
    (∀ r : Request, (myHandlerRewriteReq r).method = r.method ∧
      (myHandlerRewriteReq r).headers = r.headers) ∧
    myHandlerRewriteReq ⟨"GET", "/?x=1", []⟩ = ⟨"GET", "/?x=1", []⟩ ∧
    (myHandlerRewriteReq ⟨"GET", "/", []⟩).path = "/test-claude-ui.html" := by
  refine ⟨?_, ?_, by decide, by decide⟩
  · intro r h
    simp [myHandlerRewriteReq, h]
  · intro r
    simp [myHandlerRewriteReq_eq]

/-- C9 witness: a non-root path passes through the rewrite unchanged. -/
theorem C9_rewrite_only_exact_root_witness :
    myHandlerRewriteReq ⟨"GET", "/a.html", []⟩ = ⟨"GET", "/a.html", []⟩ :=
  C9_rewrite_only_exact_root.1 ⟨"GET", "/a.html", []⟩ (by decide)

/-- C10: only `do_GET` is overridden in `MyHandler`, so for any method
other than GET a request to `/` reaches the inherited behavior with the
literal path `/` — while a GET to `/` reaches it with the rewritten path. -/
theorem C10_only_get_overridden (base : Request → Response) (m : String)
    (hs : List (String × String)) (h : m ≠ "GET") :
    myHandlerHandle base ⟨m, "/", hs⟩ = base ⟨m, "/", hs⟩ ∧
    myHandlerHandle base ⟨"GET", "/", hs⟩ = base ⟨"GET", "/test-claude-ui.html", hs⟩ := by
  constructor
  · simp [myHandlerHandle, h]
  · simp [myHandlerHandle, myHandlerRewriteReq]

/-- C10 witness: a HEAD request to `/` reaches the inherited behavior
unrewritten, a GET to `/` rewritten. -/
theorem C10_only_get_overridden_witness :
    myHandlerHandle probeHandler ⟨"HEAD", "/", []⟩ = probeHandler ⟨"HEAD", "/", []⟩ ∧
    myHandlerHandle probeHandler ⟨"GET", "/", []⟩ =
      probeHandler ⟨"GET", "/test-claude-ui.html", []⟩ :=
  C10_only_get_overridden probeHandler "HEAD" [] (by decide)

/-- C2: a GET to an existing file path with no `..` segment (a file path,
hence not the root `/` itself) returns status 200 with the file's exact
bytes, in both server variants. -/
theorem C2_existing_file_served (fs : FS) (p : String) (b : List Nat)
    (hex : fs.lookup p = some b) (hdd : hasDotDot p = false) (hfile : p ≠ "/") :
    (simpleServerGET fs p).status = 200 ∧ (simpleServerGET fs p).body = b ∧
    (serveTestGET fs p).status = 200 ∧ (serveTestGET fs p).body = b := by
  have hrw : rewritePath p = p := rewritePath_ne p hfile
  refine ⟨?_, ?_, ?_, ?_⟩ <;>
    simp [simpleServerGET, serveTestGET, staticGET, hrw, hdd, hex]

/-- C2 witness: a one-file filesystem serves that file byte-identically. -/
theorem C2_existing_file_served_witness :
    (simpleServerGET [("/a.html", [104, 105])] "/a.html").status = 200 ∧
    (simpleServerGET [("/a.html", [104, 105])] "/a.html").body = [104, 105] ∧
    (serveTestGET [("/a.html", [104, 105])] "/a.html").status = 200 ∧
    (serveTestGET [("/a.html", [104, 105])] "/a.html").body = [104, 105] :=
  C2_existing_file_served [("/a.html", [104, 105])] "/a.html" [104, 105]
    (by decide) (by decide) (by decide)

/-- C3: a GET to a path that does not resolve to an existing file returns
status 404 with the minimal error body, in both variants (for
`serve-test.py`, resolution includes the default-document rewrite), and
the error stays local to its request: a run over any request sequence
containing the failing path answers every other request exactly as it
would alone. -/
theorem C3_missing_file_404 (fs : FS) (p : String) (ps qs : List String)
    (hs : fs.lookup p = none) (ht : fs.lookup (rewritePath p) = none) :
    (simpleServerGET fs p).status = 404 ∧
    (simpleServerGET fs p).body = minimalErrorBody ∧
    (serveTestGET fs p).status = 404 ∧
    (serveTestGET fs p).body = minimalErrorBody ∧
    serveAllSimple fs (ps ++ p :: qs) =
      serveAllSimple fs ps ++ simpleServerGET fs p :: serveAllSimple fs qs ∧
    serveAllTest fs (ps ++ p :: qs) =
      serveAllTest fs ps ++ serveTestGET fs p :: serveAllTest fs qs := by
  obtain ⟨h1, h2⟩ := staticGET_none fs p hs
  obtain ⟨h3, h4⟩ := staticGET_none fs (rewritePath p) ht
  exact ⟨h1, h2, h3, h4, by simp [serveAllSimple], by simp [serveAllTest]⟩

/-- C3 witness: an unknown path yields 404 amid other requests. -/
theorem C3_missing_file_404_witness :
    (simpleServerGET [] "/nope").status = 404 ∧
    (serveTestGET [] "/nope").status = 404 ∧
    serveAllSimple [] (["/a"] ++ "/nope" :: ["/b"]) =
      serveAllSimple [] ["/a"] ++ simpleServerGET [] "/nope" :: serveAllSimple [] ["/b"] := by
  have h := C3_missing_file_404 [] "/nope" ["/a"] ["/b"] (by decide) (by decide)
  exact ⟨h.1, h.2.2.1, h.2.2.2.2.1⟩

/-- C5: in `simple-server.py` no default document is configured, so `/`
is resolved literally — delegation to the stock handler with no rewrite —
and, the root not being a file, the response is 404 whenever no index
file is involved, even when `/test-claude-ui.html` exists. -/
theorem C5_no_default_document (fs : FS) (h : fs.lookup "/" = none) :
    simpleServerGET fs "/" = staticGET fs "/" ∧
    (simpleServerGET fs "/").status = 404 ∧
    (simpleServerGET fs "/").body = minimalErrorBody := by
  obtain ⟨h1, h2⟩ := staticGET_none fs "/" h
  exact ⟨rfl, h1, h2⟩

/-- C5 witness: even with the default document file present on disk, the
plain variant answers 404 on `/`. -/
theorem C5_no_default_document_witness :
    (simpleServerGET [("/test-claude-ui.html", [1])] "/").status = 404 :=
  (C5_no_default_document [("/test-claude-ui.html", [1])] (by decide)).2.1

/-- C6: a GET whose path holds a `..` segment is refused with status 403
or 404 and the error body, in both variants; and resolution is confined
to the root for every request: every response body is either the error
body or the contents of a file of the root filesystem. -/
theorem C6_no_escape (fs : FS) (p : String) (h : hasDotDot p = true) :
    ((simpleServerGET fs p).status = 403 ∨ (simpleServerGET fs p).status = 404) ∧
    (simpleServerGET fs p).body = minimalErrorBody ∧
    ((serveTestGET fs p).status = 403 ∨ (serveTestGET fs p).status = 404) ∧
    (serveTestGET fs p).body = minimalErrorBody ∧
    (∀ q, bodyFromRoot fs (simpleServerGET fs q)) ∧
    (∀ q, bodyFromRoot fs (serveTestGET fs q)) := by
  have hp : p ≠ "/" := by
    intro he
    rw [he] at h
    exact absurd h (by decide)
  have hrw : rewritePath p = p := rewritePath_ne p hp
  have hconf : ∀ q, bodyFromRoot fs (staticGET fs q) := by
    intro q
    by_cases hq : hasDotDot q = true
    · exact Or.inl (by simp [staticGET, hq])
    · cases hl : fs.lookup q with
      | none => exact Or.inl (by simp [staticGET, hq, hl])
      | some b => exact Or.inr ⟨q, b, hl, by simp [staticGET, hq, hl]⟩
  refine ⟨Or.inr ?_, ?_, Or.inr ?_, ?_, fun q => hconf q, fun q => hconf (rewritePath q)⟩ <;>
    simp [simpleServerGET, serveTestGET, staticGET, hrw, h]

/-- C6 witness: a parent-directory escape attempt is refused. -/
theorem C6_no_escape_witness :
    ((simpleServerGET [("/a.html", [7])] "/../etc/passwd").status = 403 ∨
      (simpleServerGET [("/a.html", [7])] "/../etc/passwd").status = 404) ∧
    (serveTestGET [("/a.html", [7])] "/../etc/passwd").body = minimalErrorBody := by
  have h := C6_no_escape [("/a.html", [7])] "/../etc/passwd" (by decide)
  exact ⟨h.1, h.2.2.2.1⟩

/-- C8: a served file's content type is inferred from its extension with
the standard mapping — `.html` to text/html, `.css` to text/css, `.js` to
application/javascript, anything else to the octet-stream fallback — in
both variants. -/
theorem C8_content_type_mapping (fs : FS) (p : String) (b : List Nat)
    (hex : fs.lookup p = some b) (hdd : hasDotDot p = false) (hfile : p ≠ "/") :
    (simpleServerGET fs p).contentType = guessType p ∧
    (serveTestGET fs p).contentType = guessType p ∧
    (fileExtension p = ".html" → guessType p = "text/html") ∧
    (fileExtension p = ".css" → guessType p = "text/css") ∧
    (fileExtension p = ".js" → guessType p = "application/javascript") ∧
    (fileExtension p ≠ ".html" → fileExtension p ≠ ".css" → fileExtension p ≠ ".js" →
      guessType p = "application/octet-stream") := by
  have hrw : rewritePath p = p := rewritePath_ne p hfile
  refine ⟨?_, ?_, ?_, ?_, ?_, ?_⟩
  · simp [simpleServerGET, staticGET, hdd, hex]
  · simp [serveTestGET, staticGET, hrw, hdd, hex]
  · intro h1
    simp only [guessType]
    rw [h1]
    decide
  · intro h1
    simp only [guessType]
    rw [h1]
    decide
  · intro h1
    simp only [guessType]
    rw [h1]
    decide
  · intro h1 h2 h3
    simp only [guessType]
    rw [if_neg h1, if_neg h2, if_neg h3]

/-- C8 witness: an `.html` file is served as text/html. -/
theorem C8_content_type_mapping_witness :
    (simpleServerGET [("/a.html", [1])] "/a.html").contentType = guessType "/a.html" ∧
    guessType "/a.html" = "text/html" := by
  have h := C8_content_type_mapping [("/a.html", [1])] "/a.html" [1]
    (by decide) (by decide) (by decide)
  exact ⟨h.1, h.2.2.1 (by decide)⟩

/-- C4 counterexample: in `simple-server.py` an interrupt while serving is
not caught — the process dies of the uncaught `KeyboardInterrupt`, so it
does not exit with status 0 (the claim asserts both variants do). -/
theorem C4_counterexample_simple_server_interrupt :
    ¬ ((simpleServerRun true).socketClosed = true ∧
       exitsZero (simpleServerRun true).termination = true) := by
  decide

/-- C4 amended: on an interrupt received while serving, both variants end
with the listening socket closed, but only `serve-test.py` exits with
status 0; `simple-server.py` terminates on the uncaught
`KeyboardInterrupt`, a non-zero exit. -/
theorem C4_amended_interrupt_shutdown :
    (serveTestRun true).socketClosed = true ∧
    (serveTestRun true).termination = .exit 0 ∧
    exitsZero (serveTestRun true).termination = true ∧
    (simpleServerRun true).socketClosed = true ∧
    (simpleServerRun true).termination = .uncaught "KeyboardInterrupt" ∧
    exitsZero (simpleServerRun true).termination = false := by
  decide

/-- C7: when a first instance holds `("", 8000)`, a second startup fails
at server creation with a bind error, terminates with a non-zero status
without retrying, and leaves the first instance's binding in place. -/
theorem C7_second_bind_fails (s0 : BindState) (h : ("", 8000) ∉ s0.bound) :
    ∃ s1, scriptStart s0 = .running s1 ∧
      ("", 8000) ∈ s1.bound ∧
      tcpBind s1 "" 8000 = .bindError ∧
      scriptStart s1 = .failed (.uncaught "OSError") false ∧
      exitsZero (.uncaught "OSError") = false := by
  refine ⟨⟨("", 8000) :: s0.bound⟩, ?_, ?_, ?_, ?_, rfl⟩
  · simp [scriptStart, tcpBind, h]
  · exact List.mem_cons_self _ _
  · simp [tcpBind]
  · simp [scriptStart, tcpBind]

/-- C7 witness: from a fresh bind state, the first start runs and the
second fails. -/
theorem C7_second_bind_fails_witness :
    ∃ s1, scriptStart ⟨[]⟩ = .running s1 ∧
      ("", 8000) ∈ s1.bound ∧
      tcpBind s1 "" 8000 = .bindError ∧
      scriptStart s1 = .failed (.uncaught "OSError") false ∧
      exitsZero (.uncaught "OSError") = false :=
  C7_second_bind_fails ⟨[]⟩ (by decide)

end StaticServer
